import Mathlib

/-!
Shallow embedding of the doudizhu (Fight the Landlord) core: the card data
model (`game/cards.py`), the rule engine (`game/rules.py`) and the game state
machine (`game/game_state.py`).  Python exceptions are modelled by `PyResult`;
Python `None` by `Option`.  Machine behaviour is translated branch for branch
from the source.
-/

/-- Suit enumeration (`cards.Suit`). -/
inductive Suit where
  | SPADES
  | HEARTS
  | DIAMONDS
  | CLUBS
deriving DecidableEq, Repr

/-- A card (`cards.Card`): value 3..15 are ranks 3..2, 16/17 the jokers; jokers
have no suit (`suit = none`).  Python `__eq__` compares value and suit, which is
structural equality here. -/
structure Card where
  value : Nat
  suit : Option Suit
deriving DecidableEq, Repr

/-- Result of a Python call: either a returned value or an uncaught exception. -/
inductive PyResult (α : Type) where
  | ok : α → PyResult α
  | exn : PyResult α
deriving DecidableEq, Repr

/-- Card-type enumeration (`rules.CardType`). -/
inductive CardType where
  | INVALID
  | SINGLE
  | PAIR
  | TRIPLE
  | TRIPLE_WITH_SINGLE
  | TRIPLE_WITH_PAIR
  | STRAIGHT
  | PAIR_STRAIGHT
  | TRIPLE_STRAIGHT
  | TRIPLE_STRAIGHT_WITH_SINGLES
  | TRIPLE_STRAIGHT_WITH_PAIRS
  | FOUR_WITH_TWO_SINGLES
  | FOUR_WITH_TWO_PAIRS
  | BOMB
  | ROCKET
deriving DecidableEq, Repr

/-- Classified pattern (`rules.CardPattern`). -/
structure CardPattern where
  cards : List Card
  card_type : CardType
  main_value : Nat
  length : Nat := 0
deriving DecidableEq, Repr

/-- `CardPattern.is_greater_than`, translated branch for branch. -/
def CardPattern.is_greater_than (self other : CardPattern) : Bool :=
  if self.card_type = CardType.ROCKET then
    decide (other.card_type ≠ CardType.ROCKET)
  else if self.card_type = CardType.BOMB then
    if other.card_type ≠ CardType.BOMB ∧ other.card_type ≠ CardType.ROCKET then
      true
    else if other.card_type = CardType.BOMB then
      decide (self.main_value > other.main_value)
    else
      false
  else if self.card_type ≠ other.card_type ∨ self.cards.length ≠ other.cards.length then
    false
  else
    decide (self.main_value > other.main_value)

/-- Insert into a sorted list of naturals (used to model Python `list.sort`). -/
def insertSorted (v : Nat) : List Nat → List Nat
  | [] => [v]
  | x :: xs => if v ≤ x then v :: x :: xs else x :: insertSorted v xs

/-- Ascending sort of naturals, modelling `values.sort()`. -/
def sortVals : List Nat → List Nat
  | [] => []
  | x :: xs => insertSorted x (sortVals xs)

/-- Distinct values of an ascending list, in order.  This models the keys of
the Python `value_count` dict, which are inserted while walking the sorted
values and hence come out in ascending order. -/
def uniqVals : List Nat → List Nat
  | [] => []
  | [v] => [v]
  | a :: b :: rest => if a = b then uniqVals (b :: rest) else a :: uniqVals (b :: rest)

/-- The `(value, count)` pairs of the Python `value_count` dict, in key order. -/
def valueCount (values : List Nat) : List (Nat × Nat) :=
  (uniqVals values).map (fun v => (v, values.count v))

/-- Consecutiveness check of `RuleEngine._is_straight`'s final loop. -/
def consecRun : List Nat → Bool
  | [] => true
  | [_] => true
  | a :: b :: rest => decide (b = a + 1) && consecRun (b :: rest)

/-- `RuleEngine._is_straight`: at least two values, none ≥ 15, consecutive. -/
def is_straight (values : List Nat) : Bool :=
  decide (2 ≤ values.length) && values.all (fun v => decide (v < 15)) && consecRun values

/-- First dict entry with the given count, as its value (0 when absent, which
also models Python falsiness of a found value 0). -/
def firstValWithCount (cnt : List (Nat × Nat)) (c : Nat) : Nat :=
  ((cnt.find? (fun p => p.2 == c)).map Prod.fst).getD 0

/-- The Python local `values`: card values, ascending. -/
def sortedVals (cards : List Card) : List Nat :=
  sortVals (cards.map Card.value)

/-- The Python local `value_count` dict, as `(value, count)` pairs in key order. -/
def cardCnt (cards : List Card) : List (Nat × Nat) :=
  valueCount (sortedVals cards)

/-- The Python local `triple_values` (already ascending). -/
def tripleVals (cards : List Card) : List Nat :=
  ((cardCnt cards).filter (fun p => p.2 == 3)).map Prod.fst

/-- Airplane-family branches of `RuleEngine.analyze_cards` (`len(triple_values)
>= 2` with a consecutive run), followed by the final `INVALID` fallthrough. -/
def analyzeAirplane (cards : List Card) : CardPattern :=
  if 2 ≤ (tripleVals cards).length ∧ is_straight (tripleVals cards) then
    if cards.length = (tripleVals cards).length * 3 then
      ⟨cards, CardType.TRIPLE_STRAIGHT, (tripleVals cards).getLastD 0, (tripleVals cards).length⟩
    else if cards.length = (tripleVals cards).length * 4 then
      ⟨cards, CardType.TRIPLE_STRAIGHT_WITH_SINGLES, (tripleVals cards).getLastD 0,
        (tripleVals cards).length⟩
    else if cards.length = (tripleVals cards).length * 5 then
      ⟨cards, CardType.TRIPLE_STRAIGHT_WITH_PAIRS, (tripleVals cards).getLastD 0,
        (tripleVals cards).length⟩
    else
      ⟨cards, CardType.INVALID, 0, 0⟩
  else
    ⟨cards, CardType.INVALID, 0, 0⟩

/-- Straight and pair-straight branches of `RuleEngine.analyze_cards`, falling
through to the airplane family. -/
def analyzeRuns (cards : List Card) : CardPattern :=
  if 5 ≤ cards.length ∧ (cardCnt cards).length = cards.length ∧
      is_straight (sortedVals cards) then
    ⟨cards, CardType.STRAIGHT, (sortedVals cards).getLastD 0, cards.length⟩
  else if 6 ≤ cards.length ∧ cards.length % 2 = 0 ∧
      (cardCnt cards).length = cards.length / 2 ∧
      (cardCnt cards).all (fun p => p.2 == 2) ∧
      is_straight ((cardCnt cards).map Prod.fst) then
    ⟨cards, CardType.PAIR_STRAIGHT, ((cardCnt cards).map Prod.fst).getLastD 0,
      (cardCnt cards).length⟩
  else
    analyzeAirplane cards

/-- Four-with-two branches of `RuleEngine.analyze_cards`, falling through to
the run shapes. -/
def analyzeQuads (cards : List Card) : CardPattern :=
  if cards.length = 6 ∧ (cardCnt cards).length = 3 ∧
      firstValWithCount (cardCnt cards) 4 ≠ 0 then
    ⟨cards, CardType.FOUR_WITH_TWO_SINGLES, firstValWithCount (cardCnt cards) 4, 0⟩
  else if cards.length = 8 ∧ (cardCnt cards).length = 3 ∧
      firstValWithCount (cardCnt cards) 4 ≠ 0 ∧
      ((cardCnt cards).filter (fun p => p.2 == 2)).length = 2 then
    ⟨cards, CardType.FOUR_WITH_TWO_PAIRS, firstValWithCount (cardCnt cards) 4, 0⟩
  else
    analyzeRuns cards

/-- Triple-with-attachment and bomb branches of `RuleEngine.analyze_cards`,
falling through to the four-with-two shapes. -/
def analyzeTriples (cards : List Card) : CardPattern :=
  if cards.length = 4 ∧ (cardCnt cards).length = 2 ∧
      ((cardCnt cards).find? (fun p => p.2 == 3)).isSome then
    ⟨cards, CardType.TRIPLE_WITH_SINGLE, firstValWithCount (cardCnt cards) 3, 0⟩
  else if cards.length = 5 ∧ (cardCnt cards).length = 2 ∧
      firstValWithCount (cardCnt cards) 3 ≠ 0 ∧ firstValWithCount (cardCnt cards) 2 ≠ 0 then
    ⟨cards, CardType.TRIPLE_WITH_PAIR, firstValWithCount (cardCnt cards) 3, 0⟩
  else if cards.length = 4 ∧ (cardCnt cards).length = 1 then
    ⟨cards, CardType.BOMB, (sortedVals cards).headD 0, 0⟩
  else
    analyzeQuads cards

/-- `RuleEngine.analyze_cards`, translated branch for branch in source order.
The locals `values`, `value_count`, `card_count`, `unique_values` and
`triple_values` appear as `sortedVals cards`, `cardCnt cards`, `cards.length`,
`(cardCnt cards).length` and `tripleVals cards`; the single decision chain of
the source is spelled as a cascade of helper functions, one per group of
branches, each falling through to the next exactly as the source does. -/
def analyze_cards (cards : List Card) : CardPattern :=
  if cards = [] then ⟨[], CardType.INVALID, 0, 0⟩
  else if cards.length = 1 then
    ⟨cards, CardType.SINGLE, (sortedVals cards).headD 0, 0⟩
  else if cards.length = 2 ∧ (cardCnt cards).length = 1 then
    ⟨cards, CardType.PAIR, (sortedVals cards).headD 0, 0⟩
  else if cards.length = 2 ∧ 16 ∈ sortedVals cards ∧ 17 ∈ sortedVals cards then
    ⟨cards, CardType.ROCKET, 17, 0⟩
  else if cards.length = 3 ∧ (cardCnt cards).length = 1 then
    ⟨cards, CardType.TRIPLE, (sortedVals cards).headD 0, 0⟩
  else
    analyzeTriples cards

/-- `RuleEngine.can_follow`.  A `None` last pattern and one whose
`card_type` is `INVALID` are both accepted unconditionally (Python
`not last_pattern or last_pattern.card_type == CardType.INVALID`). -/
def can_follow (current_cards : List Card) (last_pattern : Option CardPattern) : Bool :=
  match last_pattern with
  | none => true
  | some lp =>
    if lp.card_type = CardType.INVALID then true
    else
      let current_pattern := analyze_cards current_cards
      if current_pattern.card_type = CardType.INVALID then false
      else current_pattern.is_greater_than lp

/-- `RuleEngine.is_valid_cards`. -/
def is_valid_cards (cards : List Card) : Bool :=
  decide ((analyze_cards cards).card_type ≠ CardType.INVALID)

/-- All `k`-element combinations of a list, in `itertools.combinations` order. -/
def combinations : Nat → List Card → List (List Card)
  | 0, _ => [[]]
  | _ + 1, [] => []
  | k + 1, x :: xs => (combinations k xs).map (fun c => x :: c) ++ combinations (k + 1) xs

/-- Python `range(a, b)` as a list. -/
def rangeList (a b : Nat) : List Nat :=
  (List.range b).drop a

/-- `RuleEngine.find_possible_plays`: with a last pattern, subset sizes run
from `len(last_pattern.cards)` to `len(hand_cards)`; when opening, from 1. -/
def find_possible_plays (hand_cards : List Card) (last_pattern : Option CardPattern) :
    List (List Card) :=
  match last_pattern with
  | none =>
    (rangeList 1 (hand_cards.length + 1)).flatMap
      (fun i => (combinations i hand_cards).filter (fun combo => is_valid_cards combo))
  | some lp =>
    (rangeList lp.cards.length (hand_cards.length + 1)).flatMap
      (fun i => (combinations i hand_cards).filter (fun combo => can_follow combo (some lp)))

/-- `Hand.has_cards`: every requested card must be in the hand, membership
checked card by card with no multiplicity accounting. -/
def has_cards (hand cards : List Card) : Bool :=
  cards.all (fun card => decide (card ∈ hand))

/-- Python `list.remove`: delete the first occurrence, `none` models the
`ValueError` raised when the element is absent. -/
def removeFirst (hand : List Card) (card : Card) : Option (List Card) :=
  match hand with
  | [] => none
  | x :: xs => if x = card then some xs else (removeFirst xs card).map (fun r => x :: r)

/-- Sequential `self.cards.remove(card)` loop of `Hand.remove_cards`. -/
def removeAll (hand : List Card) : List Card → Option (List Card)
  | [] => some hand
  | card :: rest => (removeFirst hand card).bind (fun h => removeAll h rest)

/-- `Hand.remove_cards`: a membership pre-check (without multiplicity), then
one `list.remove` per requested card; a failing `remove` is an uncaught
`ValueError`. -/
def remove_cards (hand cards : List Card) : PyResult (Bool × List Card) :=
  if has_cards hand cards then
    match removeAll hand cards with
    | some hand' => .ok (true, hand')
    | none => .exn
  else
    .ok (false, hand)

/-- `Player.play_cards`: re-checks `has_cards`, then calls `remove_cards`. -/
def play_cards (hand cards : List Card) : PyResult (Bool × List Card) :=
  if has_cards hand cards then
    match remove_cards hand cards with
    | .ok (_, hand') => .ok (true, hand')
    | .exn => .exn
  else
    .ok (false, hand)

/-- Game phase (`game_state.GamePhase`). -/
inductive GamePhase where
  | DEALING
  | BIDDING
  | PLAYING
  | ENDED
deriving DecidableEq, Repr

/-- The per-player state the claims observe (`player.Player`): the hand, the
score and the landlord flag. -/
structure PlayerS where
  hand : List Card
  score : Int
  is_landlord : Bool
deriving DecidableEq, Repr

def defaultPlayer : PlayerS := ⟨[], 0, false⟩

/-- `game_state.GameState` (the `game_history` log is not modelled: it is
append-only and no observable behaviour reads it back). -/
structure GState where
  players : List PlayerS
  current_player_idx : Nat
  phase : GamePhase
  landlord_idx : Option Nat
  bottom_cards : List Card
  last_play : Option CardPattern
  last_player_idx : Option Nat
  pass_count : Nat
  round_count : Nat
  winner_idx : Option Nat
deriving DecidableEq, Repr

/-- `GameState.get_current_player` (Python indexes `players[idx]`; indices are
kept in range by `next_player`'s modulo). -/
def GState.get_current_player (st : GState) : PlayerS :=
  st.players.getD st.current_player_idx defaultPlayer

/-- `GameState.should_clear_last_play`. -/
def GState.should_clear_last_play (st : GState) : Bool :=
  decide (st.pass_count ≥ 2)

/-- The pass branch of `play_turn`: `increment_pass_count`, then clear
`last_play`/`last_player_idx` and reset the counter once
`should_clear_last_play` holds. -/
def passTurn (st : GState) : GState :=
  if ({ st with pass_count := st.pass_count + 1 } : GState).should_clear_last_play then
    { st with pass_count := 0, last_play := none, last_player_idx := none }
  else
    { st with pass_count := st.pass_count + 1 }

/-- `next_player` plus the `round_count` increment at the end of `play_turn`. -/
def advanceTurn (st : GState) : GState :=
  { st with current_player_idx := (st.current_player_idx + 1) % 3,
            round_count := st.round_count + 1 }

/-- The state mutations of an accepted play: the acting player's hand becomes
`hand2`, the classified pattern becomes `last_play`, `last_player_idx` is the
acting seat and `pass_count` resets. -/
def applyPlay (st : GState) (cards hand2 : List Card) : GState :=
  { st with
    players := st.players.set st.current_player_idx
      { st.get_current_player with hand := hand2 },
    last_play := some (analyze_cards cards),
    last_player_idx := some st.current_player_idx,
    pass_count := 0 }

/-- The non-pass branch of `play_turn`: hand membership check, follow check,
`play_cards` (which may raise), then either the terminal win bookkeeping or
the advance to the next seat. -/
def playCardsTurn (st : GState) (cards : List Card) : PyResult (Bool × GState) :=
  if ¬ has_cards st.get_current_player.hand cards then .ok (false, st)
  else if ¬ can_follow cards st.last_play then .ok (false, st)
  else
    match play_cards st.get_current_player.hand cards with
    | .exn => .exn
    | .ok (_, hand2) =>
      if hand2 = [] then
        .ok (true, { applyPlay st cards hand2 with
                     winner_idx := some st.current_player_idx,
                     phase := GamePhase.ENDED })
      else
        .ok (true, advanceTurn (applyPlay st cards hand2))

/-- `GameController.play_turn`, with the current player's
`choose_cards_to_play` answer passed in as `cards_to_play` (`none` = pass). -/
def play_turn (st : GState) (cards_to_play : Option (List Card)) :
    PyResult (Bool × GState) :=
  if st.phase ≠ GamePhase.PLAYING then .ok (false, st)
  else
    match cards_to_play with
    | none => .ok (true, advanceTurn (passTurn st))
    | some cards => playCardsTurn st cards

/-- `GameController.is_game_over`. -/
def is_game_over (st : GState) : Bool :=
  decide (st.phase = GamePhase.ENDED)

/-- `GameController.get_winner`. -/
def get_winner (st : GState) : Option PlayerS :=
  st.winner_idx.map (fun i => st.players.getD i defaultPlayer)

/-- The observable part of the dict returned by `get_game_result`. -/
structure GameResult where
  landlord_win : Bool
  scores : List Int
  rounds : Nat
deriving DecidableEq, Repr

/-- Score update applied to each player by index. -/
def mapIdxFrom (f : Nat → PlayerS → PlayerS) : Nat → List PlayerS → List PlayerS
  | _, [] => []
  | i, p :: ps => f i p :: mapIdxFrom f (i + 1) ps

/-- `GameController.get_game_result`.  A non-ended game returns the empty dict
(here `none`).  `winner == landlord` is Python object identity, i.e. equality
of `winner_idx` and `landlord_idx`; with no landlord the score update would
dereference `None`, modelled as an exception.  Each call mutates the players'
scores in place. -/
def get_game_result (st : GState) : PyResult (Option GameResult × GState) :=
  if ¬ is_game_over st then .ok (none, st)
  else
    match st.landlord_idx with
    | none => .exn
    | some li =>
      if st.winner_idx = some li then
        let players' := mapIdxFrom
          (fun i p => if i = li then { p with score := p.score + 2 }
                      else { p with score := p.score - 1 }) 0 st.players
        .ok (some ⟨true, players'.map PlayerS.score, st.round_count⟩,
             { st with players := players' })
      else
        let players' := mapIdxFrom
          (fun i p => if i = li then { p with score := p.score - 2 }
                      else { p with score := p.score + 1 }) 0 st.players
        .ok (some ⟨false, players'.map PlayerS.score, st.round_count⟩,
             { st with players := players' })

/-- Hand of the player at seat `i`. -/
def handOf (st : GState) (i : Nat) : List Card :=
  (st.players.getD i defaultPlayer).hand

/-- Player at seat `i`. -/
def playerOf (st : GState) (i : Nat) : PlayerS :=
  st.players.getD i defaultPlayer

/-- State component of a `play_turn` result (`d` when the call raised). -/
def outState (r : PyResult (Bool × GState)) (d : GState) : GState :=
  match r with
  | .ok (_, s) => s
  | .exn => d

/-- State component of a `get_game_result` result (`d` when the call raised). -/
def outState2 (r : PyResult (Option GameResult × GState)) (d : GState) : GState :=
  match r with
  | .ok (_, s) => s
  | .exn => d

/- Concrete fixtures. -/

def bombHand : List Card :=
  [⟨8, some Suit.SPADES⟩, ⟨8, some Suit.HEARTS⟩, ⟨8, some Suit.DIAMONDS⟩, ⟨8, some Suit.CLUBS⟩]

def straightCards : List Card :=
  [⟨3, some Suit.SPADES⟩, ⟨4, some Suit.HEARTS⟩, ⟨5, some Suit.DIAMONDS⟩,
   ⟨6, some Suit.CLUBS⟩, ⟨7, some Suit.SPADES⟩]

def invalidTwo : List Card :=
  [⟨3, some Suit.SPADES⟩, ⟨5, some Suit.HEARTS⟩]

def rocketCards : List Card := [⟨16, none⟩, ⟨17, none⟩]

/-- A Playing-phase state in which the current player holds ♠3 and ♥4. -/
def dupSt : GState :=
  { players := [⟨[⟨3, some Suit.SPADES⟩, ⟨4, some Suit.HEARTS⟩], 0, true⟩,
                ⟨[⟨5, some Suit.SPADES⟩], 0, false⟩,
                ⟨[⟨6, some Suit.SPADES⟩], 0, false⟩],
    current_player_idx := 0, phase := GamePhase.PLAYING, landlord_idx := some 0,
    bottom_cards := [], last_play := none, last_player_idx := none,
    pass_count := 0, round_count := 0, winner_idx := none }

/-- C1: `can_follow(cards, None)` returns true for every card list, with no
validity check at all; in particular it accepts the set {♠3, ♥5}, which
classifies as `INVALID` — the spec's claim that such sets are rejected when
opening a trick fails on the code. -/
theorem can_follow_none_accepts_invalid :
    (∀ cards : List Card, can_follow cards none = true)
    ∧ (analyze_cards invalidTwo).card_type = CardType.INVALID
    ∧ can_follow invalidTwo none = true :=
  ⟨fun _ => rfl, by decide, rfl⟩

/-- C2: `play_turn` can raise.  When the current player holds one ♠3 and
requests the play [♠3, ♠3], the membership checks pass (they do not count
multiplicity), the pair classifies and follows, and the second in-place
`list.remove(♠3)` raises `ValueError`, which propagates out of `play_turn`. -/
theorem play_turn_raises_on_duplicate_request :
    play_turn dupSt (some [⟨3, some Suit.SPADES⟩, ⟨3, some Suit.SPADES⟩]) = PyResult.exn := by
  decide

/-- C3: `Hand.remove_cards` is not atomic.  On the hand [♠3, ♥4] the request
[♠3, ♠3] passes the membership pre-check (no multiplicity), then removal
raises `ValueError` after having already removed one ♠3 — neither a clean
failure nor an unchanged hand. -/
theorem remove_cards_raises_on_duplicate_request :
    has_cards [⟨3, some Suit.SPADES⟩, ⟨4, some Suit.HEARTS⟩]
        [⟨3, some Suit.SPADES⟩, ⟨3, some Suit.SPADES⟩] = true
    ∧ remove_cards [⟨3, some Suit.SPADES⟩, ⟨4, some Suit.HEARTS⟩]
        [⟨3, some Suit.SPADES⟩, ⟨3, some Suit.SPADES⟩] = PyResult.exn := by
  decide

/-- C4: `find_possible_plays` misses legal plays smaller than the last
pattern: the 4-card bomb 8888 legally follows the 5-card straight 3-7
(`can_follow` is true), yet the enumeration starts at subset size 5 and
returns no play at all. -/
theorem find_possible_plays_misses_bomb :
    (analyze_cards straightCards).card_type = CardType.STRAIGHT
    ∧ can_follow bombHand (some (analyze_cards straightCards)) = true
    ∧ find_possible_plays bombHand (some (analyze_cards straightCards)) = [] := by
  decide

/-- C5 counterexample: a `ROCKET` (and likewise a `BOMB`) compared against an
`INVALID` pattern returns true, not false as the claim states. -/
theorem rocket_and_bomb_beat_invalid :
    (analyze_cards rocketCards).card_type = CardType.ROCKET
    ∧ (analyze_cards invalidTwo).card_type = CardType.INVALID
    ∧ (analyze_cards rocketCards).is_greater_than (analyze_cards invalidTwo) = true
    ∧ (analyze_cards bombHand).is_greater_than (analyze_cards invalidTwo) = true := by
  decide

/-- An ended game: landlord seat 0 won; all scores 0. -/
def endedSt : GState :=
  { players := [⟨[], 0, true⟩,
                ⟨[⟨5, some Suit.SPADES⟩], 0, false⟩,
                ⟨[⟨6, some Suit.SPADES⟩], 0, false⟩],
    current_player_idx := 0, phase := GamePhase.ENDED, landlord_idx := some 0,
    bottom_cards := [], last_play := none, last_player_idx := some 0,
    pass_count := 0, round_count := 5, winner_idx := some 0 }

def endedSt1 : GState := outState2 (get_game_result endedSt) endedSt

def endedSt2 : GState := outState2 (get_game_result endedSt1) endedSt1

/-- C9: `get_game_result` is not read-only — every call applies the ±2/±1
scoring again.  On an ended game with all scores 0 the first call leaves
scores [2, -1, -1] and a second call on the resulting state leaves
[4, -2, -2]. -/
theorem get_game_result_mutates_scores_each_call :
    endedSt1.players.map PlayerS.score = [2, -1, -1]
    ∧ endedSt2.players.map PlayerS.score = [4, -2, -2] := by
  decide

/-- Every pattern `analyze_cards` produces has `main_value` 17 when it is a
`ROCKET` and `main_value` 0 when it is `INVALID`. -/
def mainConstraint (p : CardPattern) : Prop :=
  (p.card_type = CardType.ROCKET → p.main_value = 17)
  ∧ (p.card_type = CardType.INVALID → p.main_value = 0)

theorem airplane_mainConstraint (cards : List Card) : mainConstraint (analyzeAirplane cards) := by
  unfold analyzeAirplane
  repeat' split
  all_goals exact
    ⟨fun h => by first | rfl | exact CardType.noConfusion h,
     fun h => by first | rfl | exact CardType.noConfusion h⟩

theorem runs_mainConstraint (cards : List Card) : mainConstraint (analyzeRuns cards) := by
  unfold analyzeRuns
  repeat' split
  all_goals first
    | exact airplane_mainConstraint cards
    | exact ⟨fun h => by first | rfl | exact CardType.noConfusion h,
             fun h => by first | rfl | exact CardType.noConfusion h⟩

theorem quads_mainConstraint (cards : List Card) : mainConstraint (analyzeQuads cards) := by
  unfold analyzeQuads
  repeat' split
  all_goals first
    | exact runs_mainConstraint cards
    | exact ⟨fun h => by first | rfl | exact CardType.noConfusion h,
             fun h => by first | rfl | exact CardType.noConfusion h⟩

theorem triples_mainConstraint (cards : List Card) : mainConstraint (analyzeTriples cards) := by
  unfold analyzeTriples
  repeat' split
  all_goals first
    | exact quads_mainConstraint cards
    | exact ⟨fun h => by first | rfl | exact CardType.noConfusion h,
             fun h => by first | rfl | exact CardType.noConfusion h⟩

theorem analyze_mainConstraint (cards : List Card) : mainConstraint (analyze_cards cards) := by
  unfold analyze_cards
  repeat' split
  all_goals first
    | exact triples_mainConstraint cards
    | exact ⟨fun h => by first | rfl | exact CardType.noConfusion h,
             fun h => by first | rfl | exact CardType.noConfusion h⟩

/-- A non-bomb, non-rocket pattern never beats a pattern of different type or
different card count. -/
theorem igt_false_of_mismatch (A B : CardPattern)
    (hA1 : A.card_type ≠ CardType.BOMB) (hA2 : A.card_type ≠ CardType.ROCKET)
    (h : A.card_type ≠ B.card_type ∨ A.cards.length ≠ B.cards.length) :
    A.is_greater_than B = false := by
  unfold CardPattern.is_greater_than
  rw [if_neg hA2, if_neg hA1, if_pos h]

/-- On matching type and card count, a non-bomb, non-rocket pattern compares by
`main_value`. -/
theorem igt_eq_decide_of_match (A B : CardPattern)
    (hA1 : A.card_type ≠ CardType.BOMB) (hA2 : A.card_type ≠ CardType.ROCKET)
    (ht : A.card_type = B.card_type) (hl : A.cards.length = B.cards.length) :
    A.is_greater_than B = decide (A.main_value > B.main_value) := by
  unfold CardPattern.is_greater_than
  rw [if_neg hA2, if_neg hA1, if_neg (by simp [ht, hl])]

/-- Bomb against bomb compares by `main_value`. -/
theorem igt_bomb_bomb (A B : CardPattern)
    (hA : A.card_type = CardType.BOMB) (hB : B.card_type = CardType.BOMB) :
    A.is_greater_than B = decide (A.main_value > B.main_value) := by
  unfold CardPattern.is_greater_than
  rw [if_neg (by simp [hA]), if_pos hA, if_neg (by simp [hB]), if_pos hB]

/-- C5 (amended): two patterns that are neither bombs nor rockets and differ
in `card_type` or in card count are incomparable (false both ways), and a
pattern classified `INVALID` is incomparable with any non-bomb, non-rocket
pattern; a `ROCKET` or `BOMB` compared against an `INVALID` pattern, however,
returns true, not false. -/
theorem incomparable_of_mismatch_or_invalid :
    (∀ A B : CardPattern,
      A.card_type ≠ CardType.BOMB → A.card_type ≠ CardType.ROCKET →
      B.card_type ≠ CardType.BOMB → B.card_type ≠ CardType.ROCKET →
      (A.card_type ≠ B.card_type ∨ A.cards.length ≠ B.cards.length) →
      A.is_greater_than B = false ∧ B.is_greater_than A = false)
    ∧ (∀ xs ys : List Card,
      (analyze_cards xs).card_type = CardType.INVALID →
      (analyze_cards ys).card_type ≠ CardType.BOMB →
      (analyze_cards ys).card_type ≠ CardType.ROCKET →
      (analyze_cards xs).is_greater_than (analyze_cards ys) = false
      ∧ (analyze_cards ys).is_greater_than (analyze_cards xs) = false) := by
  constructor
  · intro A B hA1 hA2 hB1 hB2 h
    exact ⟨igt_false_of_mismatch A B hA1 hA2 h,
           igt_false_of_mismatch B A hB1 hB2 (h.imp Ne.symm Ne.symm)⟩
  · intro xs ys hxI hyB hyR
    have hxB : (analyze_cards xs).card_type ≠ CardType.BOMB := by
      rw [hxI]; intro hh; cases hh
    have hxR : (analyze_cards xs).card_type ≠ CardType.ROCKET := by
      rw [hxI]; intro hh; cases hh
    by_cases ht : (analyze_cards xs).card_type = (analyze_cards ys).card_type
    · by_cases hl : (analyze_cards xs).cards.length = (analyze_cards ys).cards.length
      · have hym : (analyze_cards ys).main_value = 0 :=
          (analyze_mainConstraint ys).2 (ht ▸ hxI)
        have hxm : (analyze_cards xs).main_value = 0 :=
          (analyze_mainConstraint xs).2 hxI
        rw [igt_eq_decide_of_match _ _ hxB hxR ht hl,
            igt_eq_decide_of_match _ _ hyB hyR ht.symm hl.symm, hxm, hym]
        simp
      · exact ⟨igt_false_of_mismatch _ _ hxB hxR (Or.inr hl),
               igt_false_of_mismatch _ _ hyB hyR (Or.inr (fun hh => hl hh.symm))⟩
    · exact ⟨igt_false_of_mismatch _ _ hxB hxR (Or.inl ht),
             igt_false_of_mismatch _ _ hyB hyR (Or.inl (fun hh => ht hh.symm))⟩

/-- Witness for C5: a SINGLE 3 and a PAIR of 4s are incomparable both ways. -/
theorem incomparable_of_mismatch_or_invalid_witness :
    (analyze_cards [⟨3, some Suit.SPADES⟩]).is_greater_than
      (analyze_cards [⟨4, some Suit.SPADES⟩, ⟨4, some Suit.HEARTS⟩]) = false
    ∧ (analyze_cards [⟨4, some Suit.SPADES⟩, ⟨4, some Suit.HEARTS⟩]).is_greater_than
      (analyze_cards [⟨3, some Suit.SPADES⟩]) = false :=
  incomparable_of_mismatch_or_invalid.1
    (analyze_cards [⟨3, some Suit.SPADES⟩])
    (analyze_cards [⟨4, some Suit.SPADES⟩, ⟨4, some Suit.HEARTS⟩])
    (by decide) (by decide) (by decide) (by decide) (Or.inl (by decide))

/-- C6: `is_greater_than` is irreflexive; classified patterns of equal
`card_type` and equal card count compare exactly by `main_value`; any `BOMB`
beats any non-bomb, non-rocket pattern; a `ROCKET` beats any `BOMB`. -/
theorem igt_strict_dominance :
    (∀ A : CardPattern, A.is_greater_than A = false)
    ∧ (∀ xs ys : List Card,
        (analyze_cards xs).card_type = (analyze_cards ys).card_type →
        (analyze_cards xs).cards.length = (analyze_cards ys).cards.length →
        (analyze_cards xs).is_greater_than (analyze_cards ys)
          = decide ((analyze_cards xs).main_value > (analyze_cards ys).main_value))
    ∧ (∀ A B : CardPattern, A.card_type = CardType.BOMB →
        B.card_type ≠ CardType.BOMB → B.card_type ≠ CardType.ROCKET →
        A.is_greater_than B = true)
    ∧ (∀ A B : CardPattern, A.card_type = CardType.ROCKET → B.card_type = CardType.BOMB →
        A.is_greater_than B = true) := by
  refine ⟨?_, ?_, ?_, ?_⟩
  · intro A
    by_cases hR : A.card_type = CardType.ROCKET
    · unfold CardPattern.is_greater_than
      rw [if_pos hR]
      simp [hR]
    · by_cases hB : A.card_type = CardType.BOMB
      · rw [igt_bomb_bomb A A hB hB]; simp
      · rw [igt_eq_decide_of_match A A hB hR rfl rfl]; simp
  · intro xs ys ht hl
    by_cases hR : (analyze_cards xs).card_type = CardType.ROCKET
    · have hyR : (analyze_cards ys).card_type = CardType.ROCKET := ht ▸ hR
      have hxm := (analyze_mainConstraint xs).1 hR
      have hym := (analyze_mainConstraint ys).1 hyR
      unfold CardPattern.is_greater_than
      rw [if_pos hR, hxm, hym]
      simp [hyR]
    · by_cases hB : (analyze_cards xs).card_type = CardType.BOMB
      · exact igt_bomb_bomb _ _ hB (ht ▸ hB)
      · exact igt_eq_decide_of_match _ _ hB hR ht hl
  · intro A B hA hB1 hB2
    unfold CardPattern.is_greater_than
    rw [if_neg (by simp [hA]), if_pos hA, if_pos ⟨hB1, hB2⟩]
  · intro A B hA hB
    unfold CardPattern.is_greater_than
    rw [if_pos hA, hB]
    rfl

/-- Witness for C6: irreflexivity at the pair of 4s; equal-shape comparison on
the singles 5 and 3; the bomb of 8s beating the single 5; the rocket beating
the bomb of 8s. -/
theorem igt_strict_dominance_witness :
    ((analyze_cards [⟨4, some Suit.SPADES⟩, ⟨4, some Suit.HEARTS⟩]).is_greater_than
      (analyze_cards [⟨4, some Suit.SPADES⟩, ⟨4, some Suit.HEARTS⟩]) = false)
    ∧ ((analyze_cards [⟨5, some Suit.SPADES⟩]).is_greater_than
        (analyze_cards [⟨3, some Suit.SPADES⟩])
        = decide ((analyze_cards [⟨5, some Suit.SPADES⟩]).main_value >
            (analyze_cards [⟨3, some Suit.SPADES⟩]).main_value))
    ∧ ((analyze_cards bombHand).is_greater_than (analyze_cards [⟨5, some Suit.SPADES⟩]) = true)
    ∧ ((analyze_cards rocketCards).is_greater_than (analyze_cards bombHand) = true) :=
  ⟨igt_strict_dominance.1 (analyze_cards [⟨4, some Suit.SPADES⟩, ⟨4, some Suit.HEARTS⟩]),
   igt_strict_dominance.2.1 [⟨5, some Suit.SPADES⟩] [⟨3, some Suit.SPADES⟩]
     (by decide) (by decide),
   igt_strict_dominance.2.2.1 (analyze_cards bombHand)
     (analyze_cards [⟨5, some Suit.SPADES⟩]) (by decide) (by decide) (by decide),
   igt_strict_dominance.2.2.2 (analyze_cards rocketCards) (analyze_cards bombHand)
     (by decide) (by decide)⟩

/-- Case analysis of an accepted (returns `True`) non-pass `play_turn` call. -/
theorem play_turn_some_cases (st : GState) (cs : List Card) (st' : GState)
    (h : play_turn st (some cs) = .ok (true, st')) :
    st.phase = GamePhase.PLAYING ∧
    ∃ (b : Bool) (hand2 : List Card),
      play_cards st.get_current_player.hand cs = .ok (b, hand2) ∧
      ((hand2 = [] ∧ st' = { applyPlay st cs hand2 with
                             winner_idx := some st.current_player_idx,
                             phase := GamePhase.ENDED })
       ∨ (hand2 ≠ [] ∧ st' = advanceTurn (applyPlay st cs hand2))) := by
  unfold play_turn at h
  split at h
  · exact absurd h (by simp)
  · next hph =>
    refine ⟨not_not.mp hph, ?_⟩
    split at h
    · next heq => exact Option.noConfusion heq
    · next cards heq =>
      injection heq with heq2
      subst heq2
      unfold playCardsTurn at h
      split at h
      · simp at h
      · split at h
        · simp at h
        · split at h
          · exact PyResult.noConfusion h
          · next b hand2 heq3 =>
            split at h
            · next hemp =>
              simp only [PyResult.ok.injEq, Prod.mk.injEq, true_and] at h
              exact ⟨b, hand2, heq3, Or.inl ⟨hemp, h.symm⟩⟩
            · next hemp =>
              simp only [PyResult.ok.injEq, Prod.mk.injEq, true_and] at h
              exact ⟨b, hand2, heq3, Or.inr ⟨hemp, h.symm⟩⟩

/-- Case analysis of a pass `play_turn` call. -/
theorem play_turn_none_cases (st st' : GState) (b : Bool)
    (h : play_turn st none = .ok (b, st')) :
    (st.phase ≠ GamePhase.PLAYING ∧ b = false ∧ st' = st)
    ∨ (st.phase = GamePhase.PLAYING ∧ b = true ∧ st' = advanceTurn (passTurn st)) := by
  unfold play_turn at h
  split at h
  · next hph =>
    simp only [PyResult.ok.injEq, Prod.mk.injEq] at h
    exact Or.inl ⟨hph, h.1.symm, h.2.symm⟩
  · next hph =>
    split at h
    · simp only [PyResult.ok.injEq, Prod.mk.injEq] at h
      exact Or.inr ⟨not_not.mp hph, h.1.symm, h.2.symm⟩
    · next cards heq => exact Option.noConfusion heq

/-- An accepted non-pass play resets `pass_count` to 0. -/
theorem accepted_play_pass_count (st : GState) (cs : List Card) (st' : GState)
    (h : play_turn st (some cs) = .ok (true, st')) : st'.pass_count = 0 := by
  obtain ⟨-, b, hand2, -, hcase⟩ := play_turn_some_cases st cs st' h
  rcases hcase with ⟨-, rfl⟩ | ⟨-, rfl⟩ <;> rfl

/-- C7: an accepted non-pass play resets `pass_count` to 0, and after such a
play followed by exactly two accepted passes, `last_play` and
`last_player_idx` are cleared and `pass_count` is back to 0. -/
theorem pass_clear_semantics :
    (∀ (st : GState) (cs : List Card) (st' : GState),
      play_turn st (some cs) = .ok (true, st') → st'.pass_count = 0)
    ∧ (∀ (st : GState) (cs : List Card) (st1 st2 st3 : GState),
      play_turn st (some cs) = .ok (true, st1) →
      play_turn st1 none = .ok (true, st2) →
      play_turn st2 none = .ok (true, st3) →
      st3.last_play = none ∧ st3.last_player_idx = none ∧ st3.pass_count = 0) := by
  refine ⟨accepted_play_pass_count, ?_⟩
  intro st cs st1 st2 st3 h1 h2 h3
  have hp1 : st1.pass_count = 0 := accepted_play_pass_count st cs st1 h1
  rcases play_turn_none_cases st1 st2 true h2 with ⟨-, hb, -⟩ | ⟨-, -, rfl⟩
  · cases hb
  · have hpass1 : passTurn st1 = { st1 with pass_count := st1.pass_count + 1 } := by
      simp [passTurn, GState.should_clear_last_play, hp1]
    rcases play_turn_none_cases _ st3 true h3 with ⟨-, hb, -⟩ | ⟨-, -, rfl⟩
    · cases hb
    · have hpass2 : passTurn (advanceTurn (passTurn st1))
          = { advanceTurn (passTurn st1) with
              pass_count := 0, last_play := none, last_player_idx := none } := by
        simp [passTurn, GState.should_clear_last_play, hpass1, advanceTurn, hp1]
      rw [hpass2]
      exact ⟨rfl, rfl, rfl⟩

/-- A Playing-phase opening state: seat 0 (landlord) holds ♠3 ♠4, the others
one card each. -/
def wSt0 : GState :=
  { players := [⟨[⟨3, some Suit.SPADES⟩, ⟨4, some Suit.SPADES⟩], 0, true⟩,
                ⟨[⟨5, some Suit.SPADES⟩], 0, false⟩,
                ⟨[⟨6, some Suit.SPADES⟩], 0, false⟩],
    current_player_idx := 0, phase := GamePhase.PLAYING, landlord_idx := some 0,
    bottom_cards := [], last_play := none, last_player_idx := none,
    pass_count := 0, round_count := 0, winner_idx := none }

def wSt1 : GState := outState (play_turn wSt0 (some [⟨3, some Suit.SPADES⟩])) wSt0

def wSt2 : GState := outState (play_turn wSt1 none) wSt1

def wSt3 : GState := outState (play_turn wSt2 none) wSt2

/-- Witness for C7: seat 0 plays ♠3, seats 1 and 2 pass; the trick is cleared. -/
theorem pass_clear_semantics_witness :
    wSt3.last_play = none ∧ wSt3.last_player_idx = none ∧ wSt3.pass_count = 0 :=
  pass_clear_semantics.2 wSt0 [⟨3, some Suit.SPADES⟩] wSt1 wSt2 wSt3
    (by decide) (by decide) (by decide)


/-- C8: an accepted play that empties the acting player's hand records that
seat as `winner_idx`, sets the phase to `ENDED`, keeps `current_player_idx` on
that seat, and `get_winner` returns that player; after an accepted play the
game is over exactly when the acting hand became empty, and a pass never
changes the phase. -/
theorem termination_semantics :
    (∀ (st : GState) (cs : List Card) (st' : GState),
      st.current_player_idx < st.players.length →
      play_turn st (some cs) = .ok (true, st') →
      (is_game_over st' = true ↔ handOf st' st.current_player_idx = [])
      ∧ (handOf st' st.current_player_idx = [] →
          st'.winner_idx = some st.current_player_idx
          ∧ st'.phase = GamePhase.ENDED
          ∧ st'.current_player_idx = st.current_player_idx
          ∧ get_winner st' = some (playerOf st' st.current_player_idx)))
    ∧ (∀ (st st' : GState) (b : Bool),
      play_turn st none = .ok (b, st') → st'.phase = st.phase) := by
  constructor
  · intro st cs st' hlt h
    obtain ⟨hph, b, hand2, -, hcase⟩ := play_turn_some_cases st cs st' h
    have hhand : handOf st' st.current_player_idx = hand2 := by
      rcases hcase with ⟨-, rfl⟩ | ⟨-, rfl⟩ <;>
        simp [handOf, applyPlay, advanceTurn, List.getElem?_set_eq_of_lt, hlt]
    rcases hcase with ⟨hemp, rfl⟩ | ⟨hemp, rfl⟩
    · refine ⟨?_, fun _ => ⟨rfl, rfl, rfl, rfl⟩⟩
      rw [hhand]
      simp [is_game_over, hemp]
    · rw [hhand]
      constructor
      · simp [is_game_over, advanceTurn, applyPlay, hph, hemp]
      · intro hx
        exact absurd hx hemp
  · intro st st' b h
    rcases play_turn_none_cases st st' b h with ⟨-, -, rfl⟩ | ⟨-, -, rfl⟩
    · rfl
    · have hpt : (passTurn st).phase = st.phase := by
        unfold passTurn
        split <;> rfl
      simpa [advanceTurn] using hpt

/-- A Playing-phase state where seat 0 holds only ♠3. -/
def w8St0 : GState :=
  { players := [⟨[⟨3, some Suit.SPADES⟩], 0, true⟩,
                ⟨[⟨5, some Suit.SPADES⟩], 0, false⟩,
                ⟨[⟨6, some Suit.SPADES⟩], 0, false⟩],
    current_player_idx := 0, phase := GamePhase.PLAYING, landlord_idx := some 0,
    bottom_cards := [], last_play := none, last_player_idx := none,
    pass_count := 0, round_count := 3, winner_idx := none }

def w8St1 : GState := outState (play_turn w8St0 (some [⟨3, some Suit.SPADES⟩])) w8St0

/-- Witness for C8: seat 0 plays its last card and wins on the spot. -/
theorem termination_semantics_witness :
    (is_game_over w8St1 = true ↔ handOf w8St1 w8St0.current_player_idx = [])
    ∧ (handOf w8St1 w8St0.current_player_idx = [] →
        w8St1.winner_idx = some w8St0.current_player_idx
        ∧ w8St1.phase = GamePhase.ENDED
        ∧ w8St1.current_player_idx = w8St0.current_player_idx
        ∧ get_winner w8St1 = some (playerOf w8St1 w8St0.current_player_idx)) :=
  termination_semantics.1 w8St0 [⟨3, some Suit.SPADES⟩] w8St1 (by decide) (by decide)

/-- C10: opening with an empty list is accepted as a play.  The empty set
passes the vacuous membership check and `can_follow` against no last play,
`last_play` becomes the `INVALID` pattern with `main_value` 0, and from then
on `can_follow` against that stored pattern accepts every card set. -/
theorem empty_play_poisons_last_play :
    ∀ st : GState, st.phase = GamePhase.PLAYING → st.last_play = none →
    ∃ st', play_turn st (some []) = .ok (true, st')
      ∧ st'.last_play = some ⟨[], CardType.INVALID, 0, 0⟩
      ∧ ∀ cs : List Card, can_follow cs st'.last_play = true := by
  intro st hph hlast
  have hred : play_turn st (some []) = playCardsTurn st [] := by
    unfold play_turn
    rw [if_neg (by simp [hph])]
  have hsteps : playCardsTurn st []
      = if st.get_current_player.hand = [] then
          .ok (true, { applyPlay st [] st.get_current_player.hand with
                       winner_idx := some st.current_player_idx,
                       phase := GamePhase.ENDED })
        else
          .ok (true, advanceTurn (applyPlay st [] st.get_current_player.hand)) := by
    unfold playCardsTurn
    rw [hlast]
    rfl
  by_cases hE : st.get_current_player.hand = []
  · exact ⟨{ applyPlay st [] st.get_current_player.hand with
             winner_idx := some st.current_player_idx, phase := GamePhase.ENDED },
           by rw [hred, hsteps, if_pos hE], rfl, fun cs => rfl⟩
  · exact ⟨advanceTurn (applyPlay st [] st.get_current_player.hand),
           by rw [hred, hsteps, if_neg hE], rfl, fun cs => rfl⟩

/-- Witness for C10: the empty play is accepted from the two-card opening
state and poisons `last_play` for ♠3 ♥5, itself an invalid set. -/
theorem empty_play_poisons_last_play_witness :
    (∃ st', play_turn wSt0 (some []) = .ok (true, st')
      ∧ st'.last_play = some ⟨[], CardType.INVALID, 0, 0⟩
      ∧ ∀ cs : List Card, can_follow cs st'.last_play = true)
    ∧ (analyze_cards invalidTwo).card_type = CardType.INVALID :=
  ⟨empty_play_poisons_last_play wSt0 rfl rfl, by decide⟩
